import Mathlib

/-!
Verification of the AlphaOps CME sandbox webhook receiver.

The repository holds two revisions of one small FastAPI webhook handler:

* `src/app.py` — endpoint `POST /ingest/test` (`ingest_tv`), which parses the
  body with `json.loads`, compares the body's `auth` field to the configured
  secret, appends the payload to a log file, and calls
  `upsert_cme_to_supabase`, which maps the payload to a row and posts it to a
  PostgREST endpoint.
* `src/app/app.py` — endpoints `POST /ingest` and `POST /ingest/test`
  (`ingest`), which parse the body, build a pydantic-v1 `CmeRsiPayload`
  model, authenticate against a body field or the `X-Alphaops-Auth` header,
  append a log line, upsert through the supabase client, and post a Discord
  status message.

The embedding below models decoded JSON values, Python truthiness and the
`or` operator, `float()` coercion on a decimal subset, the pydantic-v1 field
validation that `CmeRsiPayload` performs, and both request handlers as pure
functions from the parsed body (plus failure oracles for the downstream
side effects) to an outcome and the list of side effects performed.
I/O collaborators (the HTTP framework, `json.loads`, the log file, the
storage and chat clients) are black boxes: a request body is modelled by its
parse result (`none` when `json.loads`/UTF-8 decoding raises), and each
downstream call carries a Boolean oracle saying whether it fails.
-/

/-- A decoded JSON value, as produced by Python's `json.loads`.
Python `None` (absent `dict.get` results, JSON `null`) is `null`; numbers are
modelled as rationals (the handlers only parse and pass numbers through,
never compute with them, so representation questions do not arise). -/
inductive Json where
  | null
  | bool (b : Bool)
  | num (q : ℚ)
  | str (s : String)
  | arr (xs : List Json)
  | obj (fields : List (String × Json))

/-- Python truthiness of a decoded JSON value: `None`, `False`, `0`, `""`,
`[]` and `\x7b\x7d` are falsy, everything else truthy. -/
def truthy : Json → Bool
  | .null => false
  | .bool b => b
  | .num q => q ≠ 0
  | .str s => s ≠ ""
  | .arr xs => ¬ xs.isEmpty
  | .obj fs => ¬ fs.isEmpty

/-- Python `a or b` on decoded values: `b` when `a` is falsy, else `a`. -/
def pyOr (a b : Json) : Json := if truthy a then a else b

/-- Python `d.get(k)` on a decoded JSON object: the value when the key is
present, `None` otherwise (modelled as `Json.null`, which is exactly how a
missing key and an explicit JSON `null` coincide in the Python code). -/
def dictGet (d : List (String × Json)) (k : String) : Json :=
  (d.lookup k).getD .null

/-- Python `v == s` / `v != s` for a decoded value against a string constant:
true exactly when `v` is that string (values of other types never equal a
Python `str`). -/
def isStrVal (v : Json) (s : String) : Bool :=
  match v with
  | .str t => t = s
  | _ => false

/-- Digits to a natural number, `"582".toList ↦ 582`. -/
def digitsToNat (cs : List Char) : ℕ :=
  cs.foldl (fun n c => n * 10 + (c.toNat - 48)) 0

/-- Decimal subset of Python `float(string)`: optional sign, then digits
with an optional fractional part, at least one digit overall; `none` on
anything else (exponents, `inf`, `nan` are omitted — no input the claims
exercise uses them). The caller is responsible for whitespace stripping,
as `float()` does it on the raw string. -/
def parseFloat? (s : String) : Option ℚ :=
  let cs := s.toList
  let signAndRest : ℤ × List Char :=
    match cs with
    | '-' :: r => (-1, r)
    | '+' :: r => (1, r)
    | r => (1, r)
  let sign := signAndRest.1
  let rest := signAndRest.2
  let intPart := rest.takeWhile Char.isDigit
  let afterInt := rest.dropWhile Char.isDigit
  match afterInt with
  | [] =>
    if intPart.isEmpty then none
    else some (mkRat (sign * (digitsToNat intPart : ℤ)) 1)
  | '.' :: fr =>
    let fracPart := fr.takeWhile Char.isDigit
    let afterFrac := fr.dropWhile Char.isDigit
    if afterFrac.isEmpty ∧ ¬ (intPart.isEmpty ∧ fracPart.isEmpty) then
      some (mkRat
        (sign * ((digitsToNat intPart * 10 ^ fracPart.length +
          digitsToNat fracPart : ℕ) : ℤ))
        (10 ^ fracPart.length))
    else none
  | _ => none

/-- Python `str.strip()` (and the whitespace stripping `float()` performs):
drop whitespace from both ends. -/
def stripStr (s : String) : String :=
  ⟨((s.toList.dropWhile Char.isWhitespace).reverse.dropWhile
    Char.isWhitespace).reverse⟩

/-- Python exception kinds the handlers can raise or catch. -/
inductive PyErr where
  | valueError
  | typeError
  | attributeError
  | validationError
  | ioError
  | runtimeError
deriving DecidableEq, Repr

/-- Python `str()` of a decoded value, restricted to what the handlers
actually stringify. The claims below only exercise string and missing
values, so numeric and composite values get a schematic rendering. -/
def pyStr : Json → String
  | .str s => s
  | .null => "None"
  | .bool b => if b then "True" else "False"
  | .num q => toString q.num ++ "/" ++ toString q.den
  | .arr _ => "<list>"
  | .obj _ => "<dict>"

/-- Python `float(v)` on a decoded value: numbers pass through, booleans
become 0/1, strings are stripped and parsed (`ValueError` on failure),
anything else (`None`, lists, dicts) raises `TypeError`. -/
def pyFloat : Json → Except PyErr ℚ
  | .num q => .ok q
  | .bool b => .ok (if b then 1 else 0)
  | .str s =>
    match parseFloat? (stripStr s) with
    | some q => .ok q
    | none => .error .valueError
  | _ => .error .typeError

/-- The environment configuration both revisions read at import time.
Empty strings are the defaults for unset variables, exactly as in
`os.getenv(..., "")`. `supabaseAvailable` models whether the supabase
client package imported and `create_client` succeeds. -/
structure Env where
  appSecret : String
  discordWebhook : String
  supabaseUrl : String
  supabaseKey : String
  defaultSymbol : String
  defaultTf : String
  supabaseAvailable : Bool
deriving DecidableEq, Repr

/-- A downstream side effect one of the handlers performs. -/
inductive Effect where
  /-- A line appended to the log file. -/
  | logAppend (line : Json)
  /-- `src/app.py`: PostgREST POST of a one-row list with merge-duplicates
  preference. -/
  | supabasePost (rows : List (List (String × Json)))
  /-- `src/app/app.py`: supabase client `table(...).upsert(row).execute()`,
  with no explicit conflict key. -/
  | supabaseUpsert (row : List (String × Json))
  /-- `src/app/app.py`: Discord status message, rendered from exactly these
  payload fields. -/
  | discordStatus (symbol tf : String) (rsi dist : ℚ)
  /-- `src/app/app.py`: Discord message reporting a failed upsert. -/
  | discordError

/-- What the HTTP framework sees from one handler invocation. -/
inductive Outcome where
  /-- Normal return: HTTP 200 with the returned body. -/
  | ok (body : Json)
  /-- An `HTTPException(status_code, detail)` raised by the handler. -/
  | httpError (code : ℕ) (detail : String)
  /-- Any other exception escaping the handler (HTTP 500 at the framework). -/
  | uncaught (e : PyErr)

/-- pydantic-v1 validation of an `Optional[str]` field value that is present
in the input: `None` passes as `None`, strings pass, ints/floats are coerced
via `str()`; other shapes fail validation. -/
def validateOptStr : Json → Except PyErr (Option String)
  | .null => .ok none
  | .str s => .ok (some s)
  | .num q => .ok (some (pyStr (.num q)))
  | _ => .error .validationError

/-- pydantic-v1 validation of a present `str` field value (non-optional):
as `validateOptStr` but `None` fails. -/
def validateStr : Json → Except PyErr String
  | .str s => .ok s
  | .num q => .ok (pyStr (.num q))
  | _ => .error .validationError

/-- pydantic-v1 validation of a present `float` field value: numbers pass,
booleans coerce to 0/1, strings go through `float()` (stripping
whitespace); `None` and anything unparsable fail validation. -/
def validateFloat : Json → Except PyErr ℚ
  | .num q => .ok q
  | .bool b => .ok (if b then 1 else 0)
  | .str s =>
    match parseFloat? (stripStr s) with
    | some q => .ok q
    | none => .error .validationError
  | _ => .error .validationError

/-- pydantic-v1 validation of a present `Optional[float]` field value:
`None` passes as `None`, otherwise as `validateFloat`. -/
def validateOptFloat : Json → Except PyErr (Option ℚ)
  | .null => .ok none
  | v => (validateFloat v).map some

/-- pydantic-v1 validation of a present `Optional[Dict[str, Any]]` field
value. -/
def validateOptDict : Json → Except PyErr (Option (List (String × Json)))
  | .null => .ok none
  | .obj fs => .ok (some fs)
  | _ => .error .validationError

/-- The validated `CmeRsiPayload` model of `src/app/app.py`. `timestamp` is
always a string after its `pre=True, always=True` validator ran; `dist_bps`
is always a float after its coalescing validator ran. -/
structure CmeRsiPayload where
  auth : Option String
  timestamp : String
  ts : Option String
  symbol : String
  tf : String
  rsi : ℚ
  dist_d_bps : Option ℚ
  dist_bps : ℚ
  exchange : String
  extra : Option (List (String × Json))

/-- The `normalize_timestamp` validator of `CmeRsiPayload`
(`pre=True, always=True`): `ts = v or values.get("ts")`; a falsy result
yields the current UTC time in ISO form (`now`), a truthy one is returned
as `str(ts)`. `valuesTs` is what `values.get("ts")` returns at that point. -/
def normalize_timestamp (now : String) (v valuesTs : Json) : String :=
  let ts := pyOr v valuesTs
  if truthy ts then pyStr ts else now

/-- The `coalesce_dist_bps` validator of `CmeRsiPayload` (`always=True`),
after `dist_bps` and `dist_d_bps` passed their type validation: prefer an
explicit `dist_bps`, else fall back to `dist_d_bps`, else 0. -/
def coalesce_dist_bps (v d : Option ℚ) : ℚ :=
  match v with
  | some q => q
  | none =>
    match d with
    | some q => q
    | none => 0

/-- pydantic-v1 treatment of one input field: a missing key takes the
declared default, a present value goes through the field's validation. -/
def fieldOr {α : Type} (fields : List (String × Json)) (k : String)
    (dflt : Except PyErr α) (f : Json → Except PyErr α) : Except PyErr α :=
  match fields.lookup k with
  | none => dflt
  | some v => f v

/-- `CmeRsiPayload(**raw)` of `src/app/app.py`, under pydantic v1.
A non-object `raw` raises `TypeError` (`**` needs a mapping). Fields are
validated in declaration order; a missing field takes its declared default
(`DEFAULT_SYMBOL`, `DEFAULT_TF`, `rsi = 0.0`, `exchange = "CME"`, `None`
for the optionals). Because `ts` is declared after `timestamp`, the
`normalize_timestamp` validator's `values.get("ts")` is always `None`, so
`Json.null` is passed for it. `now` is the server's current UTC time
rendered by `datetime.now(timezone.utc).isoformat()`. -/
def mkCmeRsiPayload (env : Env) (now : String) (raw : Json) :
    Except PyErr CmeRsiPayload :=
  match raw with
  | .obj fields => do
    let auth ← fieldOr fields "auth" (.ok none) validateOptStr
    let timestamp := normalize_timestamp now (dictGet fields "timestamp") .null
    let ts ← fieldOr fields "ts" (.ok none) validateOptStr
    let symbol ← fieldOr fields "symbol" (.ok env.defaultSymbol) validateStr
    let tf ← fieldOr fields "tf" (.ok env.defaultTf) validateStr
    let rsi ← fieldOr fields "rsi" (.ok 0) validateFloat
    let dist_d_bps ← fieldOr fields "dist_d_bps" (.ok none) validateOptFloat
    let distExplicit ← fieldOr fields "dist_bps" (.ok none) validateOptFloat
    let dist_bps := coalesce_dist_bps distExplicit dist_d_bps
    let exchange ← fieldOr fields "exchange" (.ok "CME") validateStr
    let extra ← fieldOr fields "extra" (.ok none) validateOptDict
    .ok { auth, timestamp, ts, symbol, tf, rsi, dist_d_bps, dist_bps,
          exchange, extra }
  | _ => .error .typeError

/-- `float(x) if x is not None else None` as used for the numeric columns of
`src/app.py`'s row. -/
def floatOrNone : Json → Except PyErr Json
  | .null => .ok .null
  | v => (pyFloat v).map Json.num

/-- The row construction inside `upsert_cme_to_supabase` of `src/app.py`:
alias selection with Python `or`, `str()` on symbol and tf, `float()` on the
numeric fields (which raises on non-numeric strings), the raw `t` value as
`ts`, and the whole payload embedded. -/
def rowA (payload : List (String × Json)) :
    Except PyErr (List (String × Json)) := do
  let ts_raw := dictGet payload "t"
  let symbol := pyOr (dictGet payload "symbol") (.str "BTCUSD.P")
  let tf := pyOr (dictGet payload "tf")
    (pyOr (dictGet payload "timeframe") (.str "1m"))
  let rsi_val := pyOr (dictGet payload "rsi_split_abs") (dictGet payload "rsi")
  let dist_val := pyOr (dictGet payload "dist_d_bps") (dictGet payload "d_bps")
  let rsi ← floatOrNone rsi_val
  let dist ← floatOrNone dist_val
  .ok [("ts", ts_raw),
       ("symbol", .str (pyStr symbol)),
       ("tf", .str (pyStr tf)),
       ("exchange", pyOr (dictGet payload "exchange") (.str "CME")),
       ("rsi", rsi),
       ("dist_bps", dist),
       ("payload", .obj payload)]

/-- `upsert_cme_to_supabase` of `src/app.py`: quietly skips when the
storage endpoint is not configured; otherwise builds the row (any `float()`
failure escapes to the caller) and posts the one-row list to PostgREST.
`postFails` models a network/HTTP failure of that POST
(`raise_for_status`). Returns the effects performed. -/
def upsert_cme_to_supabase (env : Env) (payload : List (String × Json))
    (postFails : Bool) : Except PyErr (List Effect) :=
  if env.supabaseUrl = "" ∨ env.supabaseKey = "" then .ok []
  else do
    let row ← rowA payload
    if postFails then .error .ioError
    else .ok [.supabasePost [row]]

/-- The `POST /ingest/test` handler `ingest_tv` of `src/app.py`.
`parsed` is the result of `json.loads(body.decode("utf-8"))`: `none` when
decoding or parsing raised (the guarded 400 branch). `payload.get` on a
non-dict value raises `AttributeError` outside any guard. The log append
(`os.makedirs` + `aiofiles` write) is not guarded, so `logFails` escapes;
the upsert call is guarded by a `try` whose handler body is truncated in
the source, modelled as swallowing the exception, after which the function
falls off its end and returns `None`. -/
def ingest_tv (env : Env) (parsed : Option Json) (logFails postFails : Bool) :
    Outcome × List Effect :=
  match parsed with
  | none => (.httpError 400 "invalid JSON", [])
  | some (.obj payload) =>
    if ¬ isStrVal (dictGet payload "auth") env.appSecret then
      (.httpError 401 "bad secret", [])
    else if logFails then (.uncaught .ioError, [])
    else
      let logEff := Effect.logAppend (.obj payload)
      match upsert_cme_to_supabase env payload postFails with
      | .ok effs => (.ok .null, logEff :: effs)
      | .error _ => (.ok .null, [logEff])
  | some _ => (.uncaught .attributeError, [])

/-- The row composed by `ingest` of `src/app/app.py` from the validated
payload, with the original parsed body embedded under `"payload"`. -/
def rowB (p : CmeRsiPayload) (raw : Json) : List (String × Json) :=
  [("ts", .str p.timestamp),
   ("symbol", .str p.symbol),
   ("tf", .str p.tf),
   ("exchange", .str p.exchange),
   ("rsi", .num p.rsi),
   ("dist_bps", .num p.dist_bps),
   ("payload", raw)]

/-- Python `a or b` where `a` is an `Optional[str]`: `None` and `""` are
falsy and select `b`. -/
def pyOrStr (a : Option String) (b : String) : String :=
  match a with
  | some s => if s ≠ "" then s else b
  | none => b

/-- The token `ingest` compares against the secret:
`(x_alphaops_auth or payload.auth or "").strip()`. -/
def ingestToken (hdr bodyAuth : Option String) : String :=
  stripStr (pyOrStr hdr (pyOrStr bodyAuth ""))

/-- `ok()` of `src/app/app.py`. -/
def okBody : Json := .obj [("status", .str "ok")]

/-- The body returned by `ingest` when the upsert failed; the `error` value
is `str(e)`, modelled as a fixed string. -/
def acceptedBody : Json :=
  .obj [("status", .str "accepted"), ("error", .str "upsert failed")]

/-- The `POST /ingest` / `POST /ingest/test` handler `ingest` of
`src/app/app.py`. `parsed` is the `json.loads` result (`none` when the
guarded decode/parse raised). `CmeRsiPayload(**raw)` runs outside the
guard, so its exceptions escape. `log_line` and `send_discord` catch their
own errors; the upsert (including the lazy `get_supabase`) is guarded and
its failure turns the response into the `accepted` body after a Discord
error message. Oracles: `logFails` — the log write raises inside
`log_line`; `upsertFails` — the supabase call raises; `discordFails` — the
Discord post raises inside `send_discord`. -/
def ingest (env : Env) (xAuth : Option String) (parsed : Option Json)
    (now : String) (logFails upsertFails discordFails : Bool) :
    Outcome × List Effect :=
  match parsed with
  | none => (.httpError 400 "Invalid JSON", [])
  | some raw =>
    match mkCmeRsiPayload env now raw with
    | .error e => (.uncaught e, [])
    | .ok p =>
      if env.appSecret = "" ∨ ingestToken xAuth p.auth ≠ env.appSecret then
        (.httpError 401 "Unauthorized", [])
      else
        let row := rowB p raw
        let logEffs : List Effect :=
          if logFails then [] else [.logAppend (.obj [("ingest", .obj row)])]
        if ¬ env.supabaseAvailable ∨ env.supabaseUrl = "" ∨
            env.supabaseKey = "" ∨ upsertFails then
          let dEffs : List Effect :=
            if env.discordWebhook = "" ∨ discordFails then []
            else [.discordError]
          (.ok acceptedBody, logEffs ++ dEffs)
        else
          let dEffs : List Effect :=
            if env.discordWebhook = "" ∨ discordFails then []
            else [.discordStatus p.symbol p.tf p.rsi p.dist_bps]
          (.ok okBody, logEffs ++ [.supabaseUpsert row] ++ dEffs)

/-- `true` exactly for JSON objects (Python dicts after `json.loads`). -/
def isJsonObj : Json → Bool
  | .obj _ => true
  | _ => false

/-- `true` exactly when the handler returned normally (HTTP 200). -/
def isOk200 : Outcome → Bool
  | .ok _ => true
  | _ => false

/-- Spec-side definition, following the spec's words for alias resolution:
a value is usable when it is present, non-null and not an empty string
(numeric zero and `false` are usable). Compare `truthy`, which the code
uses through Python `or`. -/
def specUsable : Json → Bool
  | .null => false
  | .str s => s ≠ ""
  | _ => true

/-- Spec-side definition, following the spec's words: for a destination
field, try the ordered source keys and take the first usable value,
otherwise the default. -/
def specFirstMatch (payload : List (String × Json)) (keys : List String)
    (dflt : Json) : Json :=
  match keys with
  | [] => dflt
  | k :: rest =>
    match payload.lookup k with
    | some v => if specUsable v then v else specFirstMatch payload rest dflt
    | none => specFirstMatch payload rest dflt

/-- Spec-side definition, following the claim's words for token selection:
the header value whenever the header is present, otherwise the body's auth
field, stripped of surrounding whitespace. Compare `ingestToken`, which
the code computes with Python `or`. -/
def specToken (hdr bodyAuth : Option String) : String :=
  stripStr (match hdr with
    | some h => h
    | none => bodyAuth.getD "")

/-- An environment with a configured secret and configured storage, used
for the concrete instances below. -/
def envS : Env :=
  { appSecret := "S3CRET", discordWebhook := "", supabaseUrl := "https://x",
    supabaseKey := "k", defaultSymbol := "BTCUSD.P", defaultTf := "1m",
    supabaseAvailable := true }

/-- `envS` with no secret configured (`ALPHAOPS_SECRET` unset, so `""`). -/
def envNoSecret : Env := { envS with appSecret := "" }

/-- `Except` bind hits `.ok` exactly when both stages do. -/
theorem except_bind_ok {α β : Type} (x : Except PyErr α)
    (f : α → Except PyErr β) (b : β) :
    (x >>= f) = .ok b ↔ ∃ a, x = .ok a ∧ f a = .ok b := by
  cases x <;> simp [Bind.bind, Except.bind]

/-- `isStrVal` is false when the value is not that string. -/
theorem isStrVal_eq_false_of_ne {v : Json} {s : String} (h : v ≠ .str s) :
    isStrVal v s = false := by
  cases v <;>
    first
    | rfl
    | (simp only [isStrVal, decide_eq_false_iff_not]
       intro h'
       exact h (by rw [h']))

/-- `isStrVal` decides equality with a string value. -/
theorem isStrVal_eq_true_iff {v : Json} {s : String} :
    isStrVal v s = true ↔ v = .str s := by
  cases v <;> simp [isStrVal]

/-- C1: counterexample — a request body that fails strict JSON parsing
(for example the plain text `hello`) is not recovered through form fields
or a raw-text mapping: both handlers answer with the guarded HTTP 400
invalid-JSON error, so the recovery pipeline is not total and the 400
response is reachable for bodies decodable as text. -/
theorem c1_total_recovery_counterexample :
    (ingest_tv envS none false false).fst = .httpError 400 "invalid JSON" ∧
    (ingest envS none none "NOW" false false false).fst
      = .httpError 400 "Invalid JSON" :=
  ⟨rfl, rfl⟩

/-- C1 (amended): body recovery is strict-JSON only. Whenever
`json.loads` (or the UTF-8 decode) fails, each revision returns its 400
invalid-JSON response with no side effects performed; there is no
form-field extraction and no single-key raw-text fallback. -/
theorem c1_total_recovery_amended (env : Env) (hdr : Option String)
    (now : String) (lf pf uf df : Bool) :
    ingest_tv env none lf pf = (.httpError 400 "invalid JSON", []) ∧
    ingest env hdr none now lf uf df = (.httpError 400 "Invalid JSON", []) :=
  ⟨rfl, rfl⟩

/-- C2: counterexample — with no secret configured (empty `APP_SECRET`)
and relaxed mode nonexistent in the code, a request carrying the JSON
object with no fields is rejected 401 by both revisions, so authentication
does not succeed for every request. -/
theorem c2_permissive_default_counterexample :
    (ingest envNoSecret none (some (.obj [])) "NOW" false false false).fst
      = .httpError 401 "Unauthorized" ∧
    (ingest_tv envNoSecret (some (.obj [])) false false).fst
      = .httpError 401 "bad secret" :=
  ⟨rfl, rfl⟩

/-- C2 (amended): when no secret is configured, the header revision
rejects every well-formed request with 401 (its guard reads
`not APP_SECRET or token != APP_SECRET`), and the plain revision
authenticates a request exactly when its body's `auth` field is the empty
string — in particular a body without an `auth` field is rejected. -/
theorem c2_permissive_default_amended :
    (∀ env hdr raw now lf uf df p, env.appSecret = "" →
      mkCmeRsiPayload env now raw = .ok p →
      ingest env hdr (some raw) now lf uf df
        = (.httpError 401 "Unauthorized", [])) ∧
    (∀ env payload lf pf, env.appSecret = "" →
      dictGet payload "auth" ≠ .str "" →
      ingest_tv env (some (.obj payload)) lf pf
        = (.httpError 401 "bad secret", [])) ∧
    (ingest_tv envNoSecret (some (.obj [("auth", .str "")])) false false).fst
      = .ok .null := by
  refine ⟨?_, ?_, rfl⟩
  · intro env hdr raw now lf uf df p hsec hp
    simp only [ingest, hp]
    simp [hsec]
  · intro env payload lf pf hsec hne
    simp only [ingest_tv, hsec, isStrVal_eq_false_of_ne hne]
    simp

/-- C2 (amended) witness at the empty JSON object and `envNoSecret`. -/
theorem c2_permissive_default_amended_witness :
    envNoSecret.appSecret = "" ∧
    mkCmeRsiPayload envNoSecret "NOW" (.obj [])
      = .ok { auth := none, timestamp := "NOW", ts := none,
              symbol := "BTCUSD.P", tf := "1m", rsi := 0, dist_d_bps := none,
              dist_bps := 0, exchange := "CME", extra := none } ∧
    ingest envNoSecret none (some (.obj [])) "NOW" false false false
      = (.httpError 401 "Unauthorized", []) ∧
    dictGet ([] : List (String × Json)) "auth" ≠ .str "" ∧
    ingest_tv envNoSecret (some (.obj [])) false false
      = (.httpError 401 "bad secret", []) :=
  ⟨rfl, rfl,
   c2_permissive_default_amended.1 envNoSecret none (.obj []) "NOW"
     false false false _ rfl rfl,
   fun h => Json.noConfusion h,
   c2_permissive_default_amended.2.1 envNoSecret [] false false rfl
     (fun h => Json.noConfusion h)⟩

/-- C5: in both revisions a request that fails the secret check gets the
401 unauthorized outcome and an empty effect list — no log append, no
storage upsert, no notification. -/
theorem c5_auth_failure_atomicity :
    (∀ env hdr raw now lf uf df p, mkCmeRsiPayload env now raw = .ok p →
      (env.appSecret = "" ∨ ingestToken hdr p.auth ≠ env.appSecret) →
      ingest env hdr (some raw) now lf uf df
        = (.httpError 401 "Unauthorized", [])) ∧
    (∀ env payload lf pf,
      isStrVal (dictGet payload "auth") env.appSecret = false →
      ingest_tv env (some (.obj payload)) lf pf
        = (.httpError 401 "bad secret", [])) := by
  constructor
  · intro env hdr raw now lf uf df p hp hcond
    simp only [ingest, hp]
    rw [if_pos hcond]
  · intro env payload lf pf h
    simp [ingest_tv, h]

/-- C5 witness: a wrong body secret against `envS` is rejected by both
revisions with no effects. -/
theorem c5_auth_failure_atomicity_witness :
    mkCmeRsiPayload envS "NOW" (.obj [("auth", .str "WRONG")])
      = .ok { auth := some "WRONG", timestamp := "NOW", ts := none,
              symbol := "BTCUSD.P", tf := "1m", rsi := 0, dist_d_bps := none,
              dist_bps := 0, exchange := "CME", extra := none } ∧
    (envS.appSecret = "" ∨ ingestToken none (some "WRONG") ≠ envS.appSecret) ∧
    ingest envS none (some (.obj [("auth", .str "WRONG")])) "NOW"
      false false false = (.httpError 401 "Unauthorized", []) ∧
    isStrVal (dictGet [("auth", .str "WRONG")] "auth") envS.appSecret
      = false ∧
    ingest_tv envS (some (.obj [("auth", .str "WRONG")])) false false
      = (.httpError 401 "bad secret", []) :=
  ⟨rfl, Or.inr (by decide),
   c5_auth_failure_atomicity.1 envS none (.obj [("auth", .str "WRONG")])
     "NOW" false false false _ rfl (Or.inr (by decide)),
   rfl,
   c5_auth_failure_atomicity.2 envS [("auth", .str "WRONG")] false false rfl⟩

/-- C10: a body parsing to valid non-object JSON (array, number, string,
boolean or null) never takes the guarded 400 invalid-JSON branch: the
plain revision raises AttributeError at `payload.get` and the pydantic
revision raises TypeError at `CmeRsiPayload(**raw)`, both outside the
guard, so neither handler returns an HTTP error response for such bodies —
the exception escapes instead. -/
theorem c10_non_object_json_escapes_400 :
    (∀ env v lf pf, isJsonObj v = false →
      (ingest_tv env (some v) lf pf).fst = .uncaught .attributeError) ∧
    (∀ env hdr v now lf uf df, isJsonObj v = false →
      (ingest env hdr (some v) now lf uf df).fst = .uncaught .typeError) ∧
    (∀ env v lf pf c d, isJsonObj v = false →
      (ingest_tv env (some v) lf pf).fst ≠ .httpError c d) ∧
    (∀ env hdr v now lf uf df c d, isJsonObj v = false →
      (ingest env hdr (some v) now lf uf df).fst ≠ .httpError c d) := by
  have h1 : ∀ env v lf pf, isJsonObj v = false →
      (ingest_tv env (some v) lf pf).fst = .uncaught .attributeError := by
    intro env v lf pf h
    cases v with
    | obj fs => exact absurd h (by simp [isJsonObj])
    | null => rfl
    | bool b => rfl
    | num q => rfl
    | str s => rfl
    | arr xs => rfl
  have h2 : ∀ env hdr v now lf uf df, isJsonObj v = false →
      (ingest env hdr (some v) now lf uf df).fst = .uncaught .typeError := by
    intro env hdr v now lf uf df h
    cases v with
    | obj fs => exact absurd h (by simp [isJsonObj])
    | null => rfl
    | bool b => rfl
    | num q => rfl
    | str s => rfl
    | arr xs => rfl
  refine ⟨h1, h2, ?_, ?_⟩
  · intro env v lf pf c d h hc
    rw [h1 env v lf pf h] at hc
    exact Outcome.noConfusion hc
  · intro env hdr v now lf uf df c d h hc
    rw [h2 env hdr v now lf uf df h] at hc
    exact Outcome.noConfusion hc

/-- C10 witness at the empty JSON array. -/
theorem c10_non_object_json_escapes_400_witness :
    isJsonObj (.arr []) = false ∧
    (ingest_tv envS (some (.arr [])) false false).fst
      = .uncaught .attributeError ∧
    (ingest envS none (some (.arr [])) "NOW" false false false).fst
      = .uncaught .typeError ∧
    (ingest_tv envS (some (.arr [])) false false).fst
      ≠ .httpError 400 "invalid JSON" ∧
    (ingest envS none (some (.arr [])) "NOW" false false false).fst
      ≠ .httpError 400 "Invalid JSON" :=
  ⟨rfl,
   c10_non_object_json_escapes_400.1 envS (.arr []) false false rfl,
   c10_non_object_json_escapes_400.2.1 envS none (.arr []) "NOW"
     false false false rfl,
   c10_non_object_json_escapes_400.2.2.1 envS (.arr []) false false
     400 "invalid JSON" rfl,
   c10_non_object_json_escapes_400.2.2.2 envS none (.arr []) "NOW"
     false false false 400 "Invalid JSON" rfl⟩

/-- C3: counterexample — numeric coercion is not total and does not
default to 0.0 on failure: in the pydantic revision the non-numeric string
`abc` under `rsi` makes `CmeRsiPayload(**raw)` raise a validation error
that escapes the handler (no row, no 0.0), and in the plain revision an
absent numeric source yields a null `rsi` column, not 0.0. -/
theorem c3_numeric_coercion_counterexample :
    mkCmeRsiPayload envS "NOW" (.obj [("rsi", .str "abc")])
      = .error .validationError ∧
    (ingest envS none (some (.obj [("auth", .str "S3CRET"),
      ("rsi", .str "abc")])) "NOW" false false false).fst
      = .uncaught .validationError ∧
    (rowA []).map (fun r => dictGet r "rsi") = .ok .null :=
  ⟨rfl, rfl, rfl⟩

/-- C3 (amended): numeric coercion defaults only on absence, and raises on
malformed strings. In the pydantic revision a payload-validation error
escapes the handler uncaught; a string that does not parse as a float
fails validation; an absent `rsi`/`dist` pair yields the declared defaults
0.0. In the plain revision `float(x) if x is not None else None` maps an
absent source to a null column and raises `ValueError` (caught only at the
enclosing upsert call) on an unparsable string. -/
theorem c3_numeric_coercion_amended :
    (∀ env hdr raw now lf uf df e, mkCmeRsiPayload env now raw = .error e →
      ingest env hdr (some raw) now lf uf df = (.uncaught e, [])) ∧
    (∀ s, parseFloat? (stripStr s) = none →
      validateFloat (.str s) = .error .validationError) ∧
    (∀ env now p, mkCmeRsiPayload env now (.obj []) = .ok p →
      p.rsi = 0 ∧ p.dist_bps = 0) ∧
    floatOrNone .null = .ok .null ∧
    (∀ s, parseFloat? (stripStr s) = none →
      floatOrNone (.str s) = .error .valueError) := by
  refine ⟨?_, ?_, ?_, rfl, ?_⟩
  · intro env hdr raw now lf uf df e h
    simp only [ingest, h]
  · intro s h
    simp [validateFloat, h]
  · intro env now p hp
    have hp' : Except.ok
        { auth := none, timestamp := now, ts := none,
          symbol := env.defaultSymbol, tf := env.defaultTf, rsi := 0,
          dist_d_bps := none, dist_bps := 0, exchange := "CME",
          extra := none : CmeRsiPayload } = .ok p := hp
    injection hp' with h'
    subst h'
    exact ⟨rfl, rfl⟩
  · intro s h
    simp [floatOrNone, pyFloat, h, Except.map]

/-- C3 (amended) witness at the string `abc` and the empty object. -/
theorem c3_numeric_coercion_amended_witness :
    mkCmeRsiPayload envS "NOW" (.obj [("rsi", .str "abc")])
      = .error .validationError ∧
    ingest envS none (some (.obj [("rsi", .str "abc")])) "NOW"
      false false false = (.uncaught .validationError, []) ∧
    parseFloat? (stripStr "abc") = none ∧
    validateFloat (.str "abc") = .error .validationError ∧
    mkCmeRsiPayload envS "NOW" (.obj [])
      = .ok { auth := none, timestamp := "NOW", ts := none,
              symbol := "BTCUSD.P", tf := "1m", rsi := 0, dist_d_bps := none,
              dist_bps := 0, exchange := "CME", extra := none } ∧
    ({ auth := none, timestamp := "NOW", ts := none, symbol := "BTCUSD.P",
       tf := "1m", rsi := 0, dist_d_bps := none, dist_bps := 0,
       exchange := "CME", extra := none : CmeRsiPayload }.rsi = 0 ∧
     { auth := none, timestamp := "NOW", ts := none, symbol := "BTCUSD.P",
       tf := "1m", rsi := 0, dist_d_bps := none, dist_bps := 0,
       exchange := "CME", extra := none : CmeRsiPayload }.dist_bps = 0) ∧
    floatOrNone (.str "abc") = .error .valueError :=
  ⟨rfl,
   c3_numeric_coercion_amended.1 envS none (.obj [("rsi", .str "abc")])
     "NOW" false false false .validationError rfl,
   rfl,
   c3_numeric_coercion_amended.2.1 "abc" rfl,
   rfl,
   c3_numeric_coercion_amended.2.2.1 envS "NOW" _ rfl,
   c3_numeric_coercion_amended.2.2.2.2 "abc" rfl⟩

/-- C4: counterexample — the pydantic revision never parses a supplied
timestamp: the unparsable string `garbage` is passed through verbatim as
`ts` instead of being replaced by the server's current time, and in the
plain revision a payload without `t` yields a null `ts` column. -/
theorem c4_timestamp_totality_counterexample :
    (mkCmeRsiPayload envS "2025-10-20T07:40:00+00:00"
      (.obj [("auth", .str "S3CRET"), ("timestamp", .str "garbage")])).map
        (fun p => p.timestamp) = .ok "garbage" ∧
    "garbage" ≠ "2025-10-20T07:40:00+00:00" ∧
    (rowA [("rsi", .num 1)]).map (fun r => dictGet r "ts") = .ok .null :=
  ⟨rfl, by decide, rfl⟩

/-- C4 (amended): in the pydantic revision `ts` is non-null but unparsed —
a falsy (absent or empty) `timestamp` yields the current UTC time, while
any truthy value is passed through as `str(value)` with no parsing and no
failure substitution; the separate `ts` alias is ineffective because
pydantic validates fields in declaration order, so `values.get("ts")` is
always `None` inside `normalize_timestamp` (modelled by the `Json.null`
argument). In the plain revision the row's `ts` is the raw `t` value,
null when absent. -/
theorem c4_timestamp_totality_amended :
    (∀ now v, truthy v = false → normalize_timestamp now v .null = now) ∧
    (∀ now v, truthy v = true → normalize_timestamp now v .null = pyStr v) ∧
    (∀ env now fields p, mkCmeRsiPayload env now (.obj fields) = .ok p →
      p.timestamp
        = normalize_timestamp now (dictGet fields "timestamp") .null) ∧
    (∀ payload row, rowA payload = .ok row →
      dictGet row "ts" = dictGet payload "t") := by
  refine ⟨?_, ?_, ?_, ?_⟩
  · intro now v h
    have hv : pyOr v Json.null = Json.null := by
      unfold pyOr
      rw [h]
      rfl
    simp [normalize_timestamp, hv, truthy]
  · intro now v h
    have hv : pyOr v Json.null = v := by
      unfold pyOr
      rw [h]
      rfl
    simp [normalize_timestamp, hv, h]
  · intro env now fields p hp
    simp only [mkCmeRsiPayload, except_bind_ok, Except.ok.injEq] at hp
    obtain ⟨a1, -, a2, -, a3, -, a4, -, a5, -, a6, -, a7, -, a8, -, a9, -,
      hp⟩ := hp
    subst hp
    rfl
  · intro payload row hp
    simp only [rowA, except_bind_ok, Except.ok.injEq] at hp
    obtain ⟨a, -, b, -, hp⟩ := hp
    subst hp
    rfl

/-- C4 (amended) witness: missing timestamp yields `NOW`, the string
`garbage` is passed through, and the plain revision's `ts` is the raw
`t`. -/
theorem c4_timestamp_totality_amended_witness :
    truthy .null = false ∧
    normalize_timestamp "NOW" .null .null = "NOW" ∧
    truthy (.str "garbage") = true ∧
    normalize_timestamp "NOW" (.str "garbage") .null = pyStr (.str "garbage") ∧
    mkCmeRsiPayload envS "NOW" (.obj [("timestamp", .str "garbage")])
      = .ok { auth := none, timestamp := "garbage", ts := none,
              symbol := "BTCUSD.P", tf := "1m", rsi := 0, dist_d_bps := none,
              dist_bps := 0, exchange := "CME", extra := none } ∧
    ({ auth := none, timestamp := "garbage", ts := none,
       symbol := "BTCUSD.P", tf := "1m", rsi := 0, dist_d_bps := none,
       dist_bps := 0, exchange := "CME",
       extra := none : CmeRsiPayload }.timestamp
      = normalize_timestamp "NOW"
          (dictGet [("timestamp", .str "garbage")] "timestamp") .null) ∧
    rowA [("rsi", .num 1)]
      = .ok [("ts", .null), ("symbol", .str "BTCUSD.P"), ("tf", .str "1m"),
             ("exchange", .str "CME"), ("rsi", .num 1), ("dist_bps", .null),
             ("payload", .obj [("rsi", .num 1)])] ∧
    dictGet [("ts", Json.null), ("symbol", .str "BTCUSD.P"),
             ("tf", .str "1m"), ("exchange", .str "CME"), ("rsi", .num 1),
             ("dist_bps", .null), ("payload", .obj [("rsi", .num 1)])] "ts"
      = dictGet [("rsi", Json.num 1)] "t" :=
  ⟨rfl,
   c4_timestamp_totality_amended.1 "NOW" .null rfl,
   rfl,
   c4_timestamp_totality_amended.2.1 "NOW" (.str "garbage") rfl,
   rfl,
   c4_timestamp_totality_amended.2.2.1 envS "NOW"
     [("timestamp", .str "garbage")] _ rfl,
   rfl,
   c4_timestamp_totality_amended.2.2.2 [("rsi", .num 1)] _ rfl⟩

/-- C6: counterexample — in the plain revision the log append is not
guarded: with valid authentication, a failing log write escapes the
handler as an uncaught exception instead of the success acknowledgement
the claim promises, and no effect is delivered. -/
theorem c6_downstream_failures_counterexample :
    ingest_tv envS (some (.obj [("auth", .str "S3CRET")])) true false
      = (.uncaught .ioError, []) := rfl

/-- C6 (amended): in the pydantic revision, once parsing, model
construction and authentication succeed the handler always returns an
HTTP 200 success body regardless of log, upsert or notification failures
(the upsert failure switches the body to the `accepted` variant). In the
plain revision only the storage call is guarded: with a working log write
the handler returns 200 whatever the storage call does, but a failing log
write escapes uncaught. -/
theorem c6_downstream_failures_amended :
    (∀ env hdr raw now lf uf df p, mkCmeRsiPayload env now raw = .ok p →
      ¬ (env.appSecret = "" ∨ ingestToken hdr p.auth ≠ env.appSecret) →
      isOk200 (ingest env hdr (some raw) now lf uf df).fst = true) ∧
    (∀ env payload pf,
      isStrVal (dictGet payload "auth") env.appSecret = true →
      isOk200 (ingest_tv env (some (.obj payload)) false pf).fst = true) ∧
    (∀ env payload pf,
      isStrVal (dictGet payload "auth") env.appSecret = true →
      ingest_tv env (some (.obj payload)) true pf
        = (.uncaught .ioError, [])) := by
  refine ⟨?_, ?_, ?_⟩
  · intro env hdr raw now lf uf df p hp hcond
    simp only [ingest, hp]
    rw [if_neg hcond]
    split <;> rfl
  · intro env payload pf h
    simp only [ingest_tv, h]
    cases hu : upsert_cme_to_supabase env payload pf <;> simp [hu, isOk200]
  · intro env payload pf h
    simp [ingest_tv, h]

/-- C6 (amended) witness: with a correct secret, the pydantic revision
returns 200 even when all three downstream calls fail, the plain revision
returns 200 when only the storage call fails, and the plain revision
raises when the log write fails. -/
theorem c6_downstream_failures_amended_witness :
    mkCmeRsiPayload envS "NOW" (.obj [("auth", .str "S3CRET")])
      = .ok { auth := some "S3CRET", timestamp := "NOW", ts := none,
              symbol := "BTCUSD.P", tf := "1m", rsi := 0, dist_d_bps := none,
              dist_bps := 0, exchange := "CME", extra := none } ∧
    ¬ (envS.appSecret = ""
        ∨ ingestToken none (some "S3CRET") ≠ envS.appSecret) ∧
    isOk200 (ingest envS none (some (.obj [("auth", .str "S3CRET")])) "NOW"
      true true true).fst = true ∧
    isStrVal (dictGet [("auth", .str "S3CRET")] "auth") envS.appSecret
      = true ∧
    isOk200 (ingest_tv envS (some (.obj [("auth", .str "S3CRET")]))
      false true).fst = true ∧
    ingest_tv envS (some (.obj [("auth", .str "S3CRET")])) true false
      = (.uncaught .ioError, []) :=
  ⟨rfl, by decide,
   c6_downstream_failures_amended.1 envS none
     (.obj [("auth", .str "S3CRET")]) "NOW" true true true _ rfl (by decide),
   rfl,
   c6_downstream_failures_amended.2.1 envS [("auth", .str "S3CRET")]
     true rfl,
   c6_downstream_failures_amended.2.2 envS [("auth", .str "S3CRET")]
     false rfl⟩

/-- C7: counterexample — alias resolution in the plain revision uses
Python `or`, which skips every falsy value, not just null/empty-string: a
payload with `dist_d_bps: 0` and `d_bps: 5` produces `dist_bps = 5`,
whereas the claim's first-present-non-null-non-empty rule would pick the
leading 0. -/
theorem c7_first_match_counterexample :
    (rowA [("dist_d_bps", .num 0), ("d_bps", .num 5)]).map
      (fun r => dictGet r "dist_bps") = .ok (.num 5) ∧
    specFirstMatch [("dist_d_bps", .num 0), ("d_bps", .num 5)]
      ["dist_d_bps", "d_bps"] .null = .num 0 ∧
    Json.num 5 ≠ Json.num 0 := by
  refine ⟨rfl, rfl, fun h => ?_⟩
  injection h with h'
  exact absurd h' (by norm_num)

/-- C7 (amended): alias resolution takes the first Python-truthy value —
null, empty strings, numeric zero and `false` all fall through to the next
source key (or the default); the `dist_bps` fallback of the pydantic
revision is the `coalesce_dist_bps` null-based coalesce instead. The
claim's concrete example is as stated: `dist_d_bps: 12.7` with
`rsi: "58.2"` yields a row with `rsi = 58.2`, `dist_bps = 12.7` and
`exchange = "CME"` in both revisions. -/
theorem c7_first_match_amended :
    (∀ a b, truthy a = true → pyOr a b = a) ∧
    (∀ a b, truthy a = false → pyOr a b = b) ∧
    rowA [("auth", .str "S3CRET"), ("symbol", .str "BTCUSD.P"),
          ("tf", .str "1m"), ("rsi", .str "58.2"),
          ("dist_d_bps", .num (mkRat 127 10))]
      = .ok [("ts", .null), ("symbol", .str "BTCUSD.P"), ("tf", .str "1m"),
             ("exchange", .str "CME"), ("rsi", .num (mkRat 582 10)),
             ("dist_bps", .num (mkRat 127 10)),
             ("payload", .obj [("auth", .str "S3CRET"),
               ("symbol", .str "BTCUSD.P"), ("tf", .str "1m"),
               ("rsi", .str "58.2"),
               ("dist_d_bps", .num (mkRat 127 10))])] ∧
    (mkCmeRsiPayload envS "NOW" (.obj [("auth", .str "S3CRET"),
        ("symbol", .str "BTCUSD.P"), ("tf", .str "1m"),
        ("rsi", .str "58.2"), ("dist_d_bps", .num (mkRat 127 10))])).map
      (fun p => (p.symbol, p.tf, p.rsi, p.dist_bps, p.exchange))
      = .ok ("BTCUSD.P", "1m", mkRat 582 10, mkRat 127 10, "CME") ∧
    mkRat 582 10 = (58.2 : ℚ) ∧ mkRat 127 10 = (12.7 : ℚ) := by
  refine ⟨?_, ?_, rfl, rfl, ?_, ?_⟩
  · intro a b h
    unfold pyOr
    rw [h]
    rfl
  · intro a b h
    unfold pyOr
    rw [h]
    rfl
  · rw [Rat.mkRat_eq_div]
    norm_num
  · rw [Rat.mkRat_eq_div]
    norm_num

/-- C7 (amended) witness: a truthy value is taken, a falsy one (numeric
zero) falls through. -/
theorem c7_first_match_amended_witness :
    truthy (.str "x") = true ∧ pyOr (.str "x") .null = .str "x" ∧
    truthy (.num 0) = false ∧ pyOr (.num 0) (.num 5) = .num 5 :=
  ⟨by decide, c7_first_match_amended.1 (.str "x") .null (by decide),
   by decide, c7_first_match_amended.2.1 (.num 0) (.num 5) (by decide)⟩

/-- C8: counterexample — no `natural_key` exists anywhere: the row built
by the plain revision's upsert mapping carries exactly the seven keys
`ts, symbol, tf, exchange, rsi, dist_bps, payload`, and `natural_key` is
not among them. -/
theorem c8_natural_key_counterexample :
    (rowA [("symbol", .str "BTCUSD.P")]).map (fun r => r.map Prod.fst)
      = .ok ["ts", "symbol", "tf", "exchange", "rsi", "dist_bps",
             "payload"] ∧
    "natural_key" ∉ ["ts", "symbol", "tf", "exchange", "rsi", "dist_bps",
             "payload"] :=
  ⟨rfl, by decide⟩

/-- C8 (amended): neither revision computes a `natural_key`. Every row
either revision produces has exactly the keys
`ts, symbol, tf, exchange, rsi, dist_bps, payload`, and the storage call
receives the row as-is with no explicit conflict key (the pydantic
revision's `upsert(row)` passes nothing else; deduplication is left to the
store's own unique index / merge-duplicates preference). -/
theorem c8_natural_key_amended :
    (∀ p raw, (rowB p raw).map Prod.fst
      = ["ts", "symbol", "tf", "exchange", "rsi", "dist_bps", "payload"]) ∧
    (∀ payload row, rowA payload = .ok row →
      row.map Prod.fst
        = ["ts", "symbol", "tf", "exchange", "rsi", "dist_bps",
           "payload"]) ∧
    (∀ env hdr raw now df p, mkCmeRsiPayload env now raw = .ok p →
      ¬ (env.appSecret = "" ∨ ingestToken hdr p.auth ≠ env.appSecret) →
      env.supabaseAvailable = true → env.supabaseUrl ≠ "" →
      env.supabaseKey ≠ "" →
      Effect.supabaseUpsert (rowB p raw)
        ∈ (ingest env hdr (some raw) now false false df).snd) := by
  refine ⟨fun p raw => rfl, ?_, ?_⟩
  · intro payload row hp
    simp only [rowA, except_bind_ok, Except.ok.injEq] at hp
    obtain ⟨a, -, b, -, hp⟩ := hp
    subst hp
    rfl
  · intro env hdr raw now df p hp hcond h1 h2 h3
    simp only [ingest, hp]
    rw [if_neg hcond, if_neg (by simp [h1, h2, h3])]
    simp

/-- C8 (amended) witness at a concrete authenticated request. -/
theorem c8_natural_key_amended_witness :
    rowA [("symbol", .str "BTCUSD.P")]
      = .ok [("ts", .null), ("symbol", .str "BTCUSD.P"), ("tf", .str "1m"),
             ("exchange", .str "CME"), ("rsi", .null), ("dist_bps", .null),
             ("payload", .obj [("symbol", .str "BTCUSD.P")])] ∧
    ([("ts", Json.null), ("symbol", Json.str "BTCUSD.P"),
      ("tf", Json.str "1m"), ("exchange", Json.str "CME"),
      ("rsi", Json.null), ("dist_bps", Json.null),
      ("payload", Json.obj [("symbol", Json.str "BTCUSD.P")])].map Prod.fst
      = ["ts", "symbol", "tf", "exchange", "rsi", "dist_bps", "payload"]) ∧
    mkCmeRsiPayload envS "NOW" (.obj [("auth", .str "S3CRET")])
      = .ok { auth := some "S3CRET", timestamp := "NOW", ts := none,
              symbol := "BTCUSD.P", tf := "1m", rsi := 0, dist_d_bps := none,
              dist_bps := 0, exchange := "CME", extra := none } ∧
    ¬ (envS.appSecret = ""
        ∨ ingestToken none (some "S3CRET") ≠ envS.appSecret) ∧
    envS.supabaseAvailable = true ∧ envS.supabaseUrl ≠ "" ∧
    envS.supabaseKey ≠ "" ∧
    Effect.supabaseUpsert (rowB
        { auth := some "S3CRET", timestamp := "NOW", ts := none,
          symbol := "BTCUSD.P", tf := "1m", rsi := 0, dist_d_bps := none,
          dist_bps := 0, exchange := "CME", extra := none }
        (.obj [("auth", .str "S3CRET")]))
      ∈ (ingest envS none (some (.obj [("auth", .str "S3CRET")])) "NOW"
          false false false).snd :=
  ⟨rfl,
   c8_natural_key_amended.2.1 [("symbol", .str "BTCUSD.P")] _ rfl,
   rfl, by decide, rfl, by decide, by decide,
   c8_natural_key_amended.2.2 envS none (.obj [("auth", .str "S3CRET")])
     "NOW" false _ rfl (by decide) rfl (by decide) (by decide)⟩

/-- C9: counterexample — a header that is present but empty does not
override the body: Python `or` treats the empty header as absent, so a
request with an empty `X-Alphaops-Auth` header and a matching body secret
authenticates, while the claim's whenever-present rule would compare the
empty header value and reject it. -/
theorem c9_header_override_counterexample :
    (ingest envS (some "") (some (.obj [("auth", .str "S3CRET")])) "NOW"
      false false false).fst = .ok okBody ∧
    specToken (some "") (some "S3CRET") ≠ envS.appSecret :=
  ⟨rfl, by decide⟩

/-- C9 (amended): the compared token is the header value whenever the
header is present with a non-empty value, and otherwise the body's auth
field (an empty header or an empty/absent body field falls through to the
empty string); the chosen token is stripped of surrounding whitespace
before the exact comparison. Consequently a request whose body secret
matches is rejected when a non-empty header with a different
(post-strip) value is present, and a body secret surrounded by whitespace
authenticates. -/
theorem c9_header_override_amended :
    (∀ h b, h ≠ "" → ingestToken (some h) b = stripStr h) ∧
    (∀ b, ingestToken (some "") b = ingestToken none b) ∧
    (∀ s, s ≠ "" → ingestToken none (some s) = stripStr s) ∧
    ingestToken none none = "" ∧
    (∀ env raw now lf uf df p h, mkCmeRsiPayload env now raw = .ok p →
      h ≠ "" → stripStr h ≠ env.appSecret →
      ingest env (some h) (some raw) now lf uf df
        = (.httpError 401 "Unauthorized", [])) ∧
    (ingest envS none (some (.obj [("auth", .str "  S3CRET  ")])) "NOW"
      false false false).fst = .ok okBody := by
  have htok : ∀ h b, h ≠ "" → ingestToken (some h) b = stripStr h := by
    intro h b hne
    simp [ingestToken, pyOrStr, hne]
  refine ⟨htok, fun b => rfl, ?_, rfl, ?_, rfl⟩
  · intro s hne
    simp [ingestToken, pyOrStr, hne]
  · intro env raw now lf uf df p h hp hne hs
    simp only [ingest, hp]
    rw [if_pos (Or.inr (by rw [htok h p.auth hne]; exact hs))]

/-- C9 (amended) witness: non-empty header overrides a matching body
secret; a whitespace-padded body secret authenticates. -/
theorem c9_header_override_amended_witness :
    ("WRONG" ≠ "") ∧
    ingestToken (some "WRONG") (some "S3CRET") = stripStr "WRONG" ∧
    ("S3CRET" ≠ "") ∧
    ingestToken none (some "S3CRET") = stripStr "S3CRET" ∧
    mkCmeRsiPayload envS "NOW" (.obj [("auth", .str "S3CRET")])
      = .ok { auth := some "S3CRET", timestamp := "NOW", ts := none,
              symbol := "BTCUSD.P", tf := "1m", rsi := 0, dist_d_bps := none,
              dist_bps := 0, exchange := "CME", extra := none } ∧
    stripStr "WRONG" ≠ envS.appSecret ∧
    ingest envS (some "WRONG") (some (.obj [("auth", .str "S3CRET")])) "NOW"
      false false false = (.httpError 401 "Unauthorized", []) :=
  ⟨by decide,
   c9_header_override_amended.1 "WRONG" (some "S3CRET") (by decide),
   by decide,
   c9_header_override_amended.2.2.1 "S3CRET" (by decide),
   rfl, by decide,
   c9_header_override_amended.2.2.2.2.1 envS (.obj [("auth", .str "S3CRET")])
     "NOW" false false false _ "WRONG" rfl (by decide) (by decide)⟩
